import Mathlib

set_option maxRecDepth 8192

/-!
Verification development for the `openblas-build` helper crate
(`openblas-build/src/lib.rs`): a shallow embedding of its build-option
model, argument translation, staging step, and subprocess supervision,
together with theorems about them.

Rust machine state is made explicit: the filesystem locations the code
touches become an `FsState`, a Rust `panic!`/`todo!` becomes a dedicated
result constructor carrying the panic message, and `anyhow::Result` becomes
`Except String`.  The external collaborators (`fs::remove_dir_all`,
`fs_extra::dir::copy`, `std::process`) are modelled by their documented
contracts; everything else is translated from the crate's source.
-/

/-- Calling-convention interface choice (`enum Interface` of the source). -/
inductive Interface where
  | LP64
  | ILP64

/-- `impl Default for Interface` of the source returns `Interface::LP64`. -/
def Interface.default : Interface := .LP64

/-- Embedding of `matches!(self.interface, Interface::ILP64)` from
`BuildOption::make_args`. -/
def Interface.isILP64 : Interface → Bool
  | .ILP64 => true
  | .LP64 => false

/-- Target CPU list (`enum Target` of the source, from OpenBLAS v0.3.10
TargetList.txt). -/
inductive Target where
  | P2
  | KATMAI
  | COPPERMINE
  | NORTHWOOD
  | PRESCOTT
  | BANIAS
  | YONAH
  | CORE2
  | PENRYN
  | DUNNINGTON
  | NEHALEM
  | SANDYBRIDGE
  | HASWELL
  | SKYLAKEX
  | ATOM
  | ATHLON
  | OPTERON
  | OPTERON_SSE3
  | BARCELONA
  | SHANGHAI
  | ISTANBUL
  | BOBCAT
  | BULLDOZER
  | PILEDRIVER
  | STEAMROLLER
  | EXCAVATOR
  | ZEN
  | SSE_GENERIC
  | VIAC3
  | NANO
  | POWER4
  | POWER5
  | POWER6
  | POWER7
  | POWER8
  | POWER9
  | PPCG4
  | PPC970
  | PPC970MP
  | PPC440
  | PPC440FP2
  | CELL
  | P5600
  | MIPS1004K
  | MIPS24K
  | SICORTEX
  | LOONGSON3A
  | LOONGSON3B
  | I6400
  | P6600
  | I6500
  | ITANIUM2
  | SPARC
  | SPARCV7
  | CORTEXA15
  | CORTEXA9
  | ARMV7
  | ARMV6
  | ARMV5
  | ARMV8
  | CORTEXA53
  | CORTEXA57
  | CORTEXA72
  | CORTEXA73
  | NEOVERSEN1
  | EMAG8180
  | FALKOR
  | THUNDERX
  | THUNDERX2T99
  | TSV110
  | ZARCH_GENERIC
  | Z13
  | Z14

/-- String form of a `Target` as produced by `format!("{:?}", target)` with the
derived `Debug` implementation: the variant's own identifier. -/
def Target.token : Target → String
  | .P2 => "P2"
  | .KATMAI => "KATMAI"
  | .COPPERMINE => "COPPERMINE"
  | .NORTHWOOD => "NORTHWOOD"
  | .PRESCOTT => "PRESCOTT"
  | .BANIAS => "BANIAS"
  | .YONAH => "YONAH"
  | .CORE2 => "CORE2"
  | .PENRYN => "PENRYN"
  | .DUNNINGTON => "DUNNINGTON"
  | .NEHALEM => "NEHALEM"
  | .SANDYBRIDGE => "SANDYBRIDGE"
  | .HASWELL => "HASWELL"
  | .SKYLAKEX => "SKYLAKEX"
  | .ATOM => "ATOM"
  | .ATHLON => "ATHLON"
  | .OPTERON => "OPTERON"
  | .OPTERON_SSE3 => "OPTERON_SSE3"
  | .BARCELONA => "BARCELONA"
  | .SHANGHAI => "SHANGHAI"
  | .ISTANBUL => "ISTANBUL"
  | .BOBCAT => "BOBCAT"
  | .BULLDOZER => "BULLDOZER"
  | .PILEDRIVER => "PILEDRIVER"
  | .STEAMROLLER => "STEAMROLLER"
  | .EXCAVATOR => "EXCAVATOR"
  | .ZEN => "ZEN"
  | .SSE_GENERIC => "SSE_GENERIC"
  | .VIAC3 => "VIAC3"
  | .NANO => "NANO"
  | .POWER4 => "POWER4"
  | .POWER5 => "POWER5"
  | .POWER6 => "POWER6"
  | .POWER7 => "POWER7"
  | .POWER8 => "POWER8"
  | .POWER9 => "POWER9"
  | .PPCG4 => "PPCG4"
  | .PPC970 => "PPC970"
  | .PPC970MP => "PPC970MP"
  | .PPC440 => "PPC440"
  | .PPC440FP2 => "PPC440FP2"
  | .CELL => "CELL"
  | .P5600 => "P5600"
  | .MIPS1004K => "MIPS1004K"
  | .MIPS24K => "MIPS24K"
  | .SICORTEX => "SICORTEX"
  | .LOONGSON3A => "LOONGSON3A"
  | .LOONGSON3B => "LOONGSON3B"
  | .I6400 => "I6400"
  | .P6600 => "P6600"
  | .I6500 => "I6500"
  | .ITANIUM2 => "ITANIUM2"
  | .SPARC => "SPARC"
  | .SPARCV7 => "SPARCV7"
  | .CORTEXA15 => "CORTEXA15"
  | .CORTEXA9 => "CORTEXA9"
  | .ARMV7 => "ARMV7"
  | .ARMV6 => "ARMV6"
  | .ARMV5 => "ARMV5"
  | .ARMV8 => "ARMV8"
  | .CORTEXA53 => "CORTEXA53"
  | .CORTEXA57 => "CORTEXA57"
  | .CORTEXA72 => "CORTEXA72"
  | .CORTEXA73 => "CORTEXA73"
  | .NEOVERSEN1 => "NEOVERSEN1"
  | .EMAG8180 => "EMAG8180"
  | .FALKOR => "FALKOR"
  | .THUNDERX => "THUNDERX"
  | .THUNDERX2T99 => "THUNDERX2T99"
  | .TSV110 => "TSV110"
  | .ZARCH_GENERIC => "ZARCH_GENERIC"
  | .Z13 => "Z13"
  | .Z14 => "Z14"

/-- Configuration record `struct BuildOption` of the source, field for field. -/
structure BuildOption where
  no_static : Bool
  no_shared : Bool
  no_cblas : Bool
  no_lapack : Bool
  no_lapacke : Bool
  no_fortran : Bool
  use_thread : Bool
  use_openmp : Bool
  dynamic_arch : Bool
  interface : Interface
  target : Option Target

/-- Value produced by `#[derive(Default)]` on `BuildOption`: every `bool`
field is `false`, the interface is `LP64`, the target is absent. -/
def BuildOption.default : BuildOption where
  no_static := false
  no_shared := false
  no_cblas := false
  no_lapack := false
  no_lapacke := false
  no_fortran := false
  use_thread := false
  use_openmp := false
  dynamic_arch := false
  interface := Interface.default
  target := none

/-- Result handle `struct Detail` of the source (currently field-less). -/
structure Detail where

/-- One conditional `if flag { args.push(TOKEN.into()) }` step of
`BuildOption::make_args`: the token list it contributes. -/
def tokenIf (b : Bool) (tok : String) : List String :=
  if b then [tok] else []

/-- Contribution of `if let Some(target) = self.target.as_ref()
{ args.push(format!("TARGET=\x7b:?\x7d", target)) }`. -/
def targetArgs : Option Target → List String
  | some t => ["TARGET=" ++ t.token]
  | none => []

/-- Embedding of `BuildOption::make_args`: the pushes happen in source order,
so the produced vector is the concatenation of the conditional contributions. -/
def BuildOption.make_args (opt : BuildOption) : List String :=
  tokenIf opt.no_static "NO_STATIC=1" ++
  tokenIf opt.no_shared "NO_SHARED=1" ++
  tokenIf opt.no_cblas "NO_CBLAS=1" ++
  tokenIf opt.no_lapack "NO_LAPACK=1" ++
  tokenIf opt.no_lapacke "NO_LAPACKE=1" ++
  tokenIf opt.no_fortran "NOFORTRAN=1" ++
  tokenIf opt.use_thread "USE_THREAD=1" ++
  tokenIf opt.use_openmp "USE_OPENMP=1" ++
  tokenIf opt.interface.isILP64 "INTERFACE64=1" ++
  targetArgs opt.target

/-! ## Filesystem model for staging

`BuildOption::build` touches two filesystem locations: the vendored source
checkout (read via `openblas_source_dir()`) and the output directory
`out_dir` (removed, copied into, and given the two log files).  `FsState`
records the contents of both.  The filesystem primitives `fs::remove_dir_all`
and `fs_extra::dir::copy` are external collaborators, modelled as succeeding
with their documented effect (`copy_inside: true` places the source tree's
contents directly at `out_dir`). -/

/-- A directory tree: files with contents, directories with named entries. -/
inductive FsTree where
  | file (data : String)
  | dir (entries : List (String × FsTree))

/-- Whether a tree is a directory holding an entry of the given name; this is
how `path.join("Makefile").exists()` is decided against the modelled source. -/
def FsTree.hasEntry (t : FsTree) (name : String) : Bool :=
  match t with
  | .file _ => false
  | .dir es => es.any (fun e => e.fst == name)

/-- Contents of the two filesystem locations `BuildOption::build` touches:
the source checkout, and `out_dir` (`none` when no such directory exists). -/
structure FsState where
  source : FsTree
  outDir : Option FsTree

/-- Message of the `panic!` in `openblas_source_dir`. -/
def panicNotCloned : String :=
  "OpenBLAS repository has not been cloned. Run `git submodule update --init`"

/-- Message of the panic a `todo!()` raises at runtime. -/
def todoMsg : String := "not yet implemented"

/-- Embedding of `openblas_source_dir()`: yields the source tree when the
`Makefile` marker exists, otherwise raises the "not cloned" panic
(`Except.error` models the Rust panic, not an `anyhow` error). -/
def openblas_source_dir (fs : FsState) : Except String FsTree :=
  if fs.source.hasEntry "Makefile" then .ok fs.source else .error panicNotCloned

/-- Embedding of `if out_dir.exists() { fs::remove_dir_all(&out_dir)?; }`. -/
def removeIfExists (fs : FsState) : FsState :=
  if fs.outDir.isSome then { fs with outDir := none } else fs

/-- Outcome of the staging part of `BuildOption::build` (everything up to and
including the `fs_extra::dir::copy` call): either the copy succeeded — the
copied tree is carried alongside the new state — or a panic was raised, with
the filesystem as it stood at that moment. -/
inductive StageResult where
  | ok (copied : FsTree) (fs : FsState)
  | panicked (msg : String) (fs : FsState)

/-- Staging steps of `BuildOption::build`, in source order: first the
conditional removal of `out_dir`, then the call
`fs_extra::dir::copy(openblas_source_dir(), out_dir, ...)` — whose first
argument is evaluated (and can panic) only after the removal already ran. -/
def stage (fs : FsState) : StageResult :=
  let fs1 := removeIfExists fs
  match openblas_source_dir fs1 with
  | .error msg => .panicked msg fs1
  | .ok src => .ok src { fs1 with outDir := some src }

/-- Effect of `fs::File::create` for the two log files: `out.log` and
`err.log` appear (empty) inside the staged output directory. -/
def createLogs (t : FsTree) : FsTree :=
  match t with
  | .file d => .file d
  | .dir es => .dir (es ++ [("out.log", .file ""), ("err.log", .file "")])

/-! ## Process supervision -/

/-- What the external `make` process did, as observed by
`std::process::Command::status()`: a normal exit with a code, or a failure to
spawn carrying the system error text. -/
inductive ProcOutcome where
  | exited (code : Nat)
  | spawnFailure (err : String)

/-- Display form of `std::process::ExitStatus` for a normal exit, as
interpolated by the `\x7b\x7d` in the `bail!` format string. -/
def statusDisplay (code : Nat) : String :=
  "exit status: " ++ toString code

/-- Debug form of `std::process::Command` as interpolated by `\x7b:?\x7d`:
the program and each argument, double-quoted and space-separated. -/
def commandRepr (program : String) (args : List String) : String :=
  String.intercalate " " ((program :: args).map (fun a => "\"" ++ a ++ "\""))

/-- Message built by the first `bail!` of `CheckCall::check_call` (non-zero
exit status). -/
def nonZeroMsg (cmd : String) (code : Nat) : String :=
  "Subprocess returns with non-zero status: `" ++
    (cmd ++ ("` (" ++ (statusDisplay code ++ ")")))

/-- Message built by the second `bail!` of `CheckCall::check_call` (the
process could not be spawned). -/
def spawnFailMsg (cmd : String) (err : String) : String :=
  "Subprocess execution failed: `" ++ (cmd ++ ("` (" ++ (err ++ ")")))

/-- Embedding of `CheckCall::check_call` for `Command`: exit status zero is
`Ok(())`; a non-zero exit or a spawn failure becomes the corresponding
`bail!` message (`status.success()` on unix is "exit code zero"). -/
def check_call (cmd : String) (outcome : ProcOutcome) : Except String Unit :=
  match outcome with
  | .exited code =>
      if code == 0 then .ok ()
      else .error (nonZeroMsg cmd code)
  | .spawnFailure err => .error (spawnFailMsg cmd err)

/-- Outcome of a full `BuildOption::build` call: the `Ok(Detail)` return, an
`anyhow` error return, or a Rust panic; each carries the final filesystem. -/
inductive BuildOutcome where
  | ok (detail : Detail) (fs : FsState)
  | error (msg : String) (fs : FsState)
  | panicked (msg : String) (fs : FsState)

/-- Embedding of `BuildOption::build`: stage the source into `out_dir`,
create the two log files, run `make` with the derived arguments under
`check_call`, and — on success of all of that — hit the final `todo!()`.
The behaviour of the external process is passed in as `make`. -/
def BuildOption.build (opt : BuildOption) (fs : FsState) (make : ProcOutcome) :
    BuildOutcome :=
  match stage fs with
  | .panicked msg fs1 => .panicked msg fs1
  | .ok copied fs1 =>
      let fs2 : FsState := { fs1 with outDir := some (createLogs copied) }
      match check_call (commandRepr "make" opt.make_args) make with
      | .ok _ => .panicked todoMsg fs2
      | .error e => .error e fs2

/-! ## Spec-side descriptions used for comparison -/

/-- The spec's fixed flag/token table, in its stated order
static/shared/cblas/lapack/lapacke/fortran/thread/openmp, paired with the
corresponding field of the option record. -/
def flagSettings (opt : BuildOption) : List (Bool × String) :=
  [(opt.no_static, "NO_STATIC=1"),
   (opt.no_shared, "NO_SHARED=1"),
   (opt.no_cblas, "NO_CBLAS=1"),
   (opt.no_lapack, "NO_LAPACK=1"),
   (opt.no_lapacke, "NO_LAPACKE=1"),
   (opt.no_fortran, "NOFORTRAN=1"),
   (opt.use_thread, "USE_THREAD=1"),
   (opt.use_openmp, "USE_OPENMP=1")]

/-- The nine fixed (target-independent) tokens `make_args` can emit. -/
def fixedTokens : List String :=
  ["NO_STATIC=1", "NO_SHARED=1", "NO_CBLAS=1", "NO_LAPACK=1", "NO_LAPACKE=1",
   "NOFORTRAN=1", "USE_THREAD=1", "USE_OPENMP=1", "INTERFACE64=1"]

/-- Whether a token is a target selection token, i.e. starts with "TARGET=". -/
def isTargetToken (s : String) : Bool :=
  "TARGET=".data.isPrefixOf s.data

/-! ## Concrete values used in scenario theorems -/

/-- BuildOption of the spec's scenario: threading on, dynamic_arch off,
target HASWELL, everything else at its default. -/
def optScenario : BuildOption :=
  { BuildOption.default with
      use_thread := true, dynamic_arch := false, target := some .HASWELL }

/-- BuildOption whose only active boolean flag is `dynamic_arch`. -/
def optDynOnly : BuildOption :=
  { BuildOption.default with dynamic_arch := true }

/-- A source checkout holding the `Makefile` marker. -/
def srcTreeOk : FsTree :=
  .dir [("Makefile", .file ""), ("kernel", .dir [])]

/-- A source checkout lacking the `Makefile` marker. -/
def srcNoMakefile : FsTree :=
  .dir [("README.md", .file "")]

/-- A pre-existing output directory with stale contents. -/
def staleTree : FsTree :=
  .dir [("stale.txt", .file "old")]

/-! ## Helper lemmas about the token segments -/

theorem mem_tokenIf {s tok : String} {b : Bool} (h : s ∈ tokenIf b tok) :
    s = tok := by
  cases b <;> simp_all [tokenIf]

theorem count_tokenIf (b : Bool) (tok a : String) :
    (tokenIf b tok).count a = if b then (if tok = a then 1 else 0) else 0 := by
  cases b <;> simp [tokenIf, List.count_cons, List.count_nil]

theorem countP_tokenIf (b : Bool) (tok : String) (p : String → Bool) :
    (tokenIf b tok).countP p = if b then (if p tok then 1 else 0) else 0 := by
  cases b <;> simp [tokenIf, List.countP_cons, List.countP_nil]

theorem targetTok_ne_fixed (t : Target) :
    ∀ s ∈ fixedTokens, ¬("TARGET=" ++ t.token = s) := by
  cases t <;> decide

theorem count_targetArgs {a : String} (o : Option Target) (ha : a ∈ fixedTokens) :
    (targetArgs o).count a = 0 := by
  cases o with
  | none => rfl
  | some t =>
      have h := targetTok_ne_fixed t a ha
      simp [targetArgs, List.count_cons, List.count_nil, h]

theorem isTargetToken_target (x : String) :
    isTargetToken ("TARGET=" ++ x) = true := by
  simp only [isTargetToken, String.data_append]
  exact List.isPrefixOf_iff_prefix.mpr (List.prefix_append _ _)

theorem fixed_not_targetToken : ∀ s ∈ fixedTokens, isTargetToken s = false := by
  decide

/-! ## Claim theorems (first batch) -/

/-- C9: the default BuildOption — every flag false, LP64, no Target —
translates to the empty argument sequence. -/
theorem make_args_default_empty : BuildOption.default.make_args = [] := rfl

/-- C8: the scenario BuildOption (use_thread on, dynamic_arch off, target
HASWELL, all else default) translates to exactly
["USE_THREAD=1", "TARGET=HASWELL"]. -/
theorem make_args_scenario :
    optScenario.make_args = ["USE_THREAD=1", "TARGET=HASWELL"] := rfl

/-- C10: two BuildOption values that differ only in `dynamic_arch` produce
identical argument lists — the flag has no effect on the translation. -/
theorem make_args_ignores_dynamic_arch (opt : BuildOption) (b : Bool) :
    ({ opt with dynamic_arch := b } : BuildOption).make_args
      = opt.make_args := by
  cases opt
  rfl

/-- C3 counterexample: `dynamic_arch` is an active boolean flag of the option
record here, yet the emitted argument list is empty — it does not map to any
`KEY=1` token. -/
theorem make_args_dynamic_arch_cex :
    optDynOnly.dynamic_arch = true ∧ optDynOnly.make_args = [] :=
  ⟨rfl, rfl⟩

/-- C1: at a staging-success input whose external process exits with status
zero, `BuildOption::build` does not return a `Detail`: it reaches the final
`todo!()` and panics with "not yet implemented". -/
theorem build_todo_panic_after_zero_exit :
    BuildOption.default.build ⟨srcTreeOk, none⟩ (.exited 0)
      = .panicked todoMsg ⟨srcTreeOk, some (createLogs srcTreeOk)⟩ := rfl

/-- C2 counterexample: with a source checkout lacking the Makefile marker and
a pre-existing directory at out_dir, staging does panic with the "not cloned"
diagnostic before any copy — but the pre-existing directory is NOT left
unchanged: it has already been removed when the panic fires. -/
theorem stage_removes_preexisting_cex :
    stage ⟨srcNoMakefile, some staleTree⟩
        = .panicked panicNotCloned ⟨srcNoMakefile, none⟩
      ∧ (FsState.mk srcNoMakefile none).outDir ≠
          (FsState.mk srcNoMakefile (some staleTree)).outDir :=
  ⟨rfl, by simp⟩

/-- C2 amended: when the source checkout lacks the Makefile marker, staging
fails before any copy is performed, with the dedicated "not cloned" panic
diagnostic (not a generic I/O error) — but a pre-existing directory at
out_dir has already been removed by then (the removal precedes the marker
check), so out_dir ends up absent rather than unchanged. -/
theorem stage_missing_marker (fs : FsState)
    (h : fs.source.hasEntry "Makefile" = false) :
    stage fs = .panicked panicNotCloned ⟨fs.source, none⟩ := by
  rcases fs with ⟨src, o⟩
  cases o <;> simp [stage, removeIfExists, openblas_source_dir, h]

theorem stage_missing_marker_w :
    srcNoMakefile.hasEntry "Makefile" = false
      ∧ stage ⟨srcNoMakefile, some staleTree⟩
          = .panicked panicNotCloned ⟨srcNoMakefile, none⟩ :=
  ⟨rfl, stage_missing_marker ⟨srcNoMakefile, some staleTree⟩ rfl⟩

/-- C5: staging over a pre-existing directory at out_dir (source marker
present) first removes it and then copies the source tree in, so afterwards
out_dir holds exactly the copied source tree — nothing of the prior contents
survives or is merged. -/
theorem stage_replaces_preexisting (fs : FsState) (d : FsTree)
    (hpre : fs.outDir = some d)
    (hmk : fs.source.hasEntry "Makefile" = true) :
    stage fs = .ok fs.source ⟨fs.source, some fs.source⟩ := by
  rcases fs with ⟨src, o⟩
  obtain rfl : o = some d := hpre
  simp [stage, removeIfExists, openblas_source_dir, hmk]

theorem stage_replaces_preexisting_w :
    (FsState.mk srcTreeOk (some staleTree)).outDir = some staleTree
      ∧ srcTreeOk.hasEntry "Makefile" = true
      ∧ stage ⟨srcTreeOk, some staleTree⟩
          = .ok srcTreeOk ⟨srcTreeOk, some srcTreeOk⟩ :=
  ⟨rfl, rfl,
    stage_replaces_preexisting ⟨srcTreeOk, some staleTree⟩ staleTree rfl rfl⟩

/-! ## Claim theorems (second batch): the argument translation -/

theorem filterMap_cons_flag (b : Bool) (t : String) (l : List (Bool × String)) :
    ((b, t) :: l).filterMap (fun q => if q.1 then some q.2 else none)
      = tokenIf b t ++ l.filterMap (fun q => if q.1 then some q.2 else none) := by
  cases b <;> simp [tokenIf]

/-- C3 amended: each active flag among the eight
static/shared/cblas/lapack/lapacke/fortran/thread/openmp contributes exactly
one `KEY=1` token, in that fixed order (the flag-token part of the output is
exactly the fixed-order table filtered to the active flags, followed by the
interface and target contributions); each such token occurs exactly once in
the whole emitted list when its flag is set and never otherwise.  The ninth
boolean, `dynamic_arch`, contributes no token. -/
theorem make_args_flags_once (opt : BuildOption) :
    opt.make_args
        = (flagSettings opt).filterMap (fun q => if q.1 then some q.2 else none)
            ++ tokenIf opt.interface.isILP64 "INTERFACE64=1"
            ++ targetArgs opt.target
      ∧ ∀ p ∈ flagSettings opt,
          opt.make_args.count p.2 = if p.1 then 1 else 0 := by
  constructor
  · simp only [flagSettings, filterMap_cons_flag, List.filterMap_nil,
      List.append_nil, BuildOption.make_args, List.append_assoc]
  · intro p hp
    simp only [flagSettings, List.mem_cons, List.not_mem_nil, or_false] at hp
    rcases hp with rfl | rfl | rfl | rfl | rfl | rfl | rfl | rfl <;>
      simp [BuildOption.make_args, List.count_append, count_tokenIf,
        count_targetArgs, fixedTokens]

theorem fixedTokens_not_target :
    isTargetToken "NO_STATIC=1" = false ∧ isTargetToken "NO_SHARED=1" = false
      ∧ isTargetToken "NO_CBLAS=1" = false ∧ isTargetToken "NO_LAPACK=1" = false
      ∧ isTargetToken "NO_LAPACKE=1" = false ∧ isTargetToken "NOFORTRAN=1" = false
      ∧ isTargetToken "USE_THREAD=1" = false ∧ isTargetToken "USE_OPENMP=1" = false
      ∧ isTargetToken "INTERFACE64=1" = false := by
  decide

/-- C6: when a Target is set, the argument list ends in the single token
`TARGET=<name>` — `<name>` being the Target's own uppercase identifier — and
no earlier token is a TARGET token; when no Target is set, no TARGET token is
emitted at all. -/
theorem make_args_target_last (opt : BuildOption) :
    (∀ t : Target, opt.target = some t →
        (∃ pre, opt.make_args = pre ++ ["TARGET=" ++ t.token]
            ∧ ∀ s ∈ pre, isTargetToken s = false)
          ∧ opt.make_args.countP (fun s => isTargetToken s) = 1)
      ∧ (opt.target = none →
          opt.make_args.countP (fun s => isTargetToken s) = 0)
      ∧ Target.token .HASWELL = "HASWELL"
      ∧ Target.token .CORTEXA72 = "CORTEXA72" := by
  refine ⟨?_, ?_, rfl, rfl⟩
  · intro t ht
    constructor
    · refine ⟨tokenIf opt.no_static "NO_STATIC=1" ++ tokenIf opt.no_shared "NO_SHARED=1"
        ++ tokenIf opt.no_cblas "NO_CBLAS=1" ++ tokenIf opt.no_lapack "NO_LAPACK=1"
        ++ tokenIf opt.no_lapacke "NO_LAPACKE=1" ++ tokenIf opt.no_fortran "NOFORTRAN=1"
        ++ tokenIf opt.use_thread "USE_THREAD=1" ++ tokenIf opt.use_openmp "USE_OPENMP=1"
        ++ tokenIf opt.interface.isILP64 "INTERFACE64=1", ?_, ?_⟩
      · simp [BuildOption.make_args, ht, targetArgs, List.append_assoc]
      · intro s hs
        simp only [List.mem_append, or_assoc] at hs
        rcases hs with h | h | h | h | h | h | h | h | h <;>
          · have hst := mem_tokenIf h
            subst hst
            decide
    · simp [BuildOption.make_args, List.countP_append, countP_tokenIf,
        fixedTokens_not_target, ht, targetArgs, List.countP_cons,
        isTargetToken_target]
  · intro ht
    simp [BuildOption.make_args, List.countP_append, countP_tokenIf,
      fixedTokens_not_target, ht, targetArgs]

/-- C7: relative to the same option with LP64, selecting ILP64 inserts exactly
one extra token, `INTERFACE64=1` (between the flag tokens and the target
token); with LP64 the token `INTERFACE64=1` never occurs. -/
theorem make_args_interface_token (opt : BuildOption) :
    ∃ pre post,
      ({ opt with interface := .ILP64 } : BuildOption).make_args
          = pre ++ "INTERFACE64=1" :: post
        ∧ ({ opt with interface := .LP64 } : BuildOption).make_args = pre ++ post
        ∧ ({ opt with interface := .ILP64 } : BuildOption).make_args.count
            "INTERFACE64=1" = 1
        ∧ ({ opt with interface := .LP64 } : BuildOption).make_args.count
            "INTERFACE64=1" = 0 := by
  rcases opt with ⟨b1, b2, b3, b4, b5, b6, b7, b8, b9, i, tg⟩
  refine ⟨tokenIf b1 "NO_STATIC=1" ++ tokenIf b2 "NO_SHARED=1"
    ++ tokenIf b3 "NO_CBLAS=1" ++ tokenIf b4 "NO_LAPACK=1"
    ++ tokenIf b5 "NO_LAPACKE=1" ++ tokenIf b6 "NOFORTRAN=1"
    ++ tokenIf b7 "USE_THREAD=1" ++ tokenIf b8 "USE_OPENMP=1",
    targetArgs tg, ?_, ?_, ?_, ?_⟩
  · simp [BuildOption.make_args, Interface.isILP64, tokenIf, List.append_assoc]
  · simp [BuildOption.make_args, Interface.isILP64, tokenIf, List.append_assoc]
  · simp [BuildOption.make_args, Interface.isILP64, List.count_append,
      count_tokenIf, count_targetArgs, fixedTokens]
  · simp [BuildOption.make_args, Interface.isILP64, List.count_append,
      count_tokenIf, count_targetArgs, fixedTokens]

/-! ## Claim theorems (third batch): process supervision -/

theorem spawnFailMsg_ne_nonZeroMsg (c1 e c2 : String) (n : Nat) :
    spawnFailMsg c1 e ≠ nonZeroMsg c2 n := by
  intro h
  have h2 := congrArg (fun s => s.data[11]?) h
  simp only [spawnFailMsg, nonZeroMsg, String.data_append] at h2
  rw [List.getElem?_append_left (by decide), List.getElem?_append_left (by decide)] at h2
  exact absurd h2 (by decide)

/-- C4: `check_call` classifies the outcome of the external process: exit
status zero yields success; a non-zero exit yields an error whose message
contains both the exit status display and the attempted command line; a
spawn failure yields an error carrying the underlying system error, and its
message is never equal to any non-zero-exit message. -/
theorem check_call_classification (cmd : String) (code : Nat) (err : String) :
    check_call cmd (.exited 0) = .ok ()
      ∧ (code ≠ 0 →
          check_call cmd (.exited code) = .error (nonZeroMsg cmd code)
            ∧ List.IsInfix (statusDisplay code).data (nonZeroMsg cmd code).data
            ∧ List.IsInfix cmd.data (nonZeroMsg cmd code).data)
      ∧ check_call cmd (.spawnFailure err) = .error (spawnFailMsg cmd err)
      ∧ List.IsInfix err.data (spawnFailMsg cmd err).data
      ∧ (∀ c2 n, spawnFailMsg cmd err ≠ nonZeroMsg c2 n) := by
  refine ⟨rfl, fun hc => ⟨?_, ?_, ?_⟩, rfl, ?_,
    fun c2 n => spawnFailMsg_ne_nonZeroMsg cmd err c2 n⟩
  · simp [check_call, hc]
  · refine ⟨("Subprocess returns with non-zero status: `" ++ (cmd ++ "` (")).data,
      ")".data, ?_⟩
    simp [nonZeroMsg, String.data_append, List.append_assoc]
  · refine ⟨"Subprocess returns with non-zero status: `".data,
      ("` (" ++ (statusDisplay code ++ ")")).data, ?_⟩
    simp [nonZeroMsg, String.data_append, List.append_assoc]
  · refine ⟨("Subprocess execution failed: `" ++ (cmd ++ "` (")).data,
      ")".data, ?_⟩
    simp [spawnFailMsg, String.data_append, List.append_assoc]
